import Mathlib

/-!
# Verification of the chunk core of `bevy_tilemap`

Shallow embedding of `src/chunk/mod.rs` (the `Chunk` structure and its
operations) together with the sparse/dense layer storage it relies on.
The layer storage module itself is not part of the provided sources, so
its operations are modelled from the specification; everything in the
`Chunk` namespace is translated directly from `src/chunk/mod.rs`.

Conventions of the embedding:
* `usize` indices are `Nat`; the `i32 → usize` cast done by `set_tile`
  on `tile.point.z` is modelled two's-complement on 64 bits.
* Rust `Vec<T>` is `List T`; `Vec::get`/`get_mut` guards become
  `List.get?` matches, and an in-place write through `get_mut` becomes
  `List.set`.
* `Vec::swap`, which panics when an index is out of bounds, is modelled
  as an `Option`-valued function where `none` stands for the panic.
* the `error!` logging side channel is modelled by returning a list of
  emitted error messages next to the new state.
* colours are quadruples of rationals (the code does no arithmetic on
  them, it only stores and copies them).
-/

namespace BevyTilemap

/-- RGBA colour; the core only stores and compares colours, so the
channels are modelled as rationals. -/
structure Color where
  r : Rat
  g : Rat
  b : Rat
  a : Rat
deriving DecidableEq

/-- `Color::rgba(0.0, 0.0, 0.0, 0.0)`, the fully transparent placeholder. -/
def transparent : Color := ⟨0, 0, 0, 0⟩

/-- `RawTile`: a sprite index plus an RGBA tint (src/chunk/raw_tile.rs,
used by value in `src/chunk/mod.rs`). -/
structure RawTile where
  index : Nat
  color : Color
deriving DecidableEq

/-- The placeholder tile: index 0, fully transparent. -/
def placeholderTile : RawTile := { index := 0, color := transparent }

/-- Integer grid coordinate of a chunk. -/
structure Point2 where
  x : Int
  y : Int
deriving DecidableEq

/-- Integer grid coordinate of a tile, with a z-depth. -/
structure Point3 where
  x : Int
  y : Int
  z : Int
deriving DecidableEq

/-- Chunk width, height and depth; `area = width * height`. -/
structure Dimension3 where
  width : Nat
  height : Nat
  depth : Nat
deriving DecidableEq

/-- `Dimension3::area`. -/
def Dimension3.area (d : Dimension3) : Nat := d.width * d.height

/-- Modelled from the spec: `Tile` (crate::tile::Tile, not under src/):
a tile carrying its own point, sprite order, sprite index and tint,
exactly the four fields `Chunk::set_tile` reads. -/
structure Tile where
  point : Point3
  sprite_order : Nat
  sprite_index : Nat
  tint : Color
deriving DecidableEq

/-- `LayerKind` (src/chunk/layer.rs, re-exported by src/chunk/mod.rs). -/
inductive LayerKind where
  | dense
  | sparse
deriving DecidableEq

/-- Modelled from the spec: `DenseLayer` (src/chunk/layer.rs is not under
src/): a fixed-length ordered sequence of `RawTile`. -/
structure DenseLayer where
  tiles : List RawTile
deriving DecidableEq

/-- Modelled from the spec: `SparseLayer` (src/chunk/layer.rs is not under
src/): a mapping from index to `RawTile` with unique keys, modelled as an
association list. -/
structure SparseLayer where
  tiles : List (Nat × RawTile)
deriving DecidableEq

/-- `LayerKindInner` (src/chunk/layer.rs): tagged union of the two
storage variants. -/
inductive LayerKindInner where
  | dense (l : DenseLayer)
  | sparse (l : SparseLayer)
deriving DecidableEq

/-- `SpriteLayer` (src/chunk/layer.rs): storage plus an optional
render-entity reference (opaque, modelled as `Nat`). -/
structure SpriteLayer where
  inner : LayerKindInner
  entity : Option Nat
deriving DecidableEq

/-- The default slot content: an empty sparse layer, no entity. -/
def defaultSpriteLayer : SpriteLayer :=
  { inner := .sparse ⟨[]⟩, entity := none }

/-- Insert-or-overwrite on the association list backing a sparse layer. -/
def assocSet (m : List (Nat × RawTile)) (k : Nat) (v : RawTile) :
    List (Nat × RawTile) :=
  match m with
  | [] => [(k, v)]
  | (k', v') :: rest =>
    if k' = k then (k, v) :: rest else (k', v') :: assocSet rest k v

/-- Lookup on the association list backing a sparse layer. -/
def assocGet (m : List (Nat × RawTile)) (k : Nat) : Option RawTile :=
  match m with
  | [] => none
  | (k', v) :: rest => if k' = k then some v else assocGet rest k

/-- Deletion on the association list backing a sparse layer. -/
def assocRemove (m : List (Nat × RawTile)) (k : Nat) :
    List (Nat × RawTile) :=
  m.filter (fun p => p.1 != k)

/-- Modelled from the spec: `set_tile` of the layer storage. Dense:
direct overwrite at the index (the caller pre-validates the bound, an
out-of-range write is left a no-op here); Sparse: inserts or overwrites
the map entry. -/
def LayerKindInner.setTile : LayerKindInner → Nat → RawTile → LayerKindInner
  | .dense d, i, t => .dense ⟨d.tiles.set i t⟩
  | .sparse s, i, t => .sparse ⟨assocSet s.tiles i t⟩

/-- Modelled from the spec: `remove_tile` of the layer storage. Dense:
resets the slot to the placeholder; Sparse: deletes the map entry if
present. -/
def LayerKindInner.removeTile : LayerKindInner → Nat → LayerKindInner
  | .dense d, i => .dense ⟨d.tiles.set i placeholderTile⟩
  | .sparse s, i => .sparse ⟨assocRemove s.tiles i⟩

/-- Modelled from the spec: `get_tile` of the layer storage. Dense:
returns the stored tile for an in-range index; Sparse: returns no value
for unset indices. -/
def LayerKindInner.getTile : LayerKindInner → Nat → Option RawTile
  | .dense d, i => d.tiles[i]?
  | .sparse s, i => assocGet s.tiles i

/-- Modelled from the spec: `tiles_to_attributes(area)` of the layer
storage: two index-aligned sequences of length `area`; Dense maps its
backing storage 1:1, Sparse is densified with placeholders at unset
indices. -/
def LayerKindInner.tilesToAttributes :
    LayerKindInner → Nat → List Nat × List Color
  | .dense d, area =>
    ((List.range area).map fun i => (d.tiles.getD i placeholderTile).index,
     (List.range area).map fun i => (d.tiles.getD i placeholderTile).color)
  | .sparse s, area =>
    ((List.range area).map fun i =>
        ((assocGet s.tiles i).getD placeholderTile).index,
     (List.range area).map fun i =>
        ((assocGet s.tiles i).getD placeholderTile).color)

/-- A freshly allocated layer of the requested kind: Dense pre-filled
with `width*height` placeholders, Sparse empty (`Chunk::add_layer`). -/
def freshLayer (kind : LayerKind) (dims : Dimension3) : SpriteLayer :=
  match kind with
  | .dense =>
    { inner := .dense ⟨List.replicate (dims.width * dims.height) placeholderTile⟩,
      entity := none }
  | .sparse => { inner := .sparse ⟨[]⟩, entity := none }

/-- The `i32 as usize` cast applied to `tile.point.z` in
`Chunk::set_tile`, two's-complement on a 64-bit target: a negative z
becomes a huge index. -/
def i32ToUsize (z : Int) : Nat := (z % (2 : Int) ^ 64).toNat

/-- `Vec::swap(a, b)` on a slice: exchanges the two elements, or panics
(modelled as `none`) when either index is out of bounds. -/
def vecSwap {α : Type} (l : List α) (a b : Nat) : Option (List α) :=
  match l[a]?, l[b]? with
  | some x, some y => some ((l.set a y).set b x)
  | _, _ => none

/-- The `Chunk` struct of src/chunk/mod.rs: point, `z_layers` (outer
index = z-depth, inner index = sprite order), user data, mesh handle and
optional entity (handles are opaque, modelled as `Nat`). -/
structure Chunk where
  point : Point2
  z_layers : List (List SpriteLayer)
  user_data : Nat
  mesh : Nat
  entity : Option Nat
deriving DecidableEq

namespace Chunk

/-- One iteration of the `for z in 0..dimensions.depth` loop of
`Chunk::add_layer`: the Dense arm reports "sprite layer out of bounds"
when `z` misses `z_layers` and is silent when `sprite_order` misses the
slice; the Sparse arm reports it when `sprite_order` misses the slice
and is silent when `z` misses `z_layers` — exactly the (asymmetric)
placement of the `else { error!(...) }` blocks in the source. -/
def addLayerStep (kind : LayerKind) (sprite_order : Nat) (dims : Dimension3)
    (zls : List (List SpriteLayer)) (z : Nat) :
    List (List SpriteLayer) × List String :=
  match kind with
  | .dense =>
    match zls[z]? with
    | some slice =>
      if sprite_order < slice.length then
        (zls.set z (slice.set sprite_order (freshLayer .dense dims)), [])
      else
        (zls, [])
    | none => (zls, ["sprite layer is out of bounds"])
  | .sparse =>
    match zls[z]? with
    | some slice =>
      if sprite_order < slice.length then
        (zls.set z (slice.set sprite_order (freshLayer .sparse dims)), [])
      else
        (zls, ["sprite layer is out of bounds"])
    | none => (zls, [])

/-- The whole `for z in ...` loop of `Chunk::add_layer`, accumulating the
logged errors. -/
def addLayerGo (kind : LayerKind) (sprite_order : Nat) (dims : Dimension3) :
    List Nat → List (List SpriteLayer) → List (List SpriteLayer) × List String
  | [], zls => (zls, [])
  | z :: rest, zls =>
    let step := addLayerStep kind sprite_order dims zls z
    let next := addLayerGo kind sprite_order dims rest step.1
    (next.1, step.2 ++ next.2)

/-- `Chunk::add_layer(kind, sprite_order, dimensions)`. -/
def addLayer (c : Chunk) (kind : LayerKind) (sprite_order : Nat)
    (dims : Dimension3) : Chunk × List String :=
  let r := addLayerGo kind sprite_order dims (List.range dims.depth) c.z_layers
  ({ c with z_layers := r.1 }, r.2)

/-- `Chunk::new(point, layers, dimensions, mesh)`. Note the source builds
`z_layers` as `vec![vec![default; layers.len()]]`: a single z-slice of
`layers.len()` default sparse slots, regardless of `dimensions.depth`;
it then runs `add_layer` for every `Some(kind)` entry (errors are only
logged, hence discarded here). -/
def new (point : Point2) (layers : List (Option LayerKind))
    (dims : Dimension3) (mesh : Nat) : Chunk :=
  let c0 : Chunk :=
    { point := point
      z_layers := [List.replicate layers.length defaultSpriteLayer]
      user_data := 0
      mesh := mesh
      entity := none }
  layers.enum.foldl
    (fun c p =>
      match p.2 with
      | some kind => (c.addLayer kind p.1 dims).1
      | none => c)
    c0

/-- The loop body of `Chunk::move_sprite_order` and
`Chunk::swap_sprite_order`: `sprite_layer.swap(from, to)` applied to
every z-slice in order; `none` models the `Vec::swap` panic, which
aborts the process mid-loop. -/
def vecSwapAll (a b : Nat) :
    List (List SpriteLayer) → Option (List (List SpriteLayer))
  | [] => some []
  | s :: rest =>
    match vecSwap s a b with
    | some s' => (vecSwapAll a b rest).map (fun r => s' :: r)
    | none => none

/-- `Chunk::move_sprite_order(from, to)`. The source checks
`self.z_layers.get(from_sprite_order).is_some()` (indexing the *outer*
z vector by the sprite order!) at the top of every iteration and
early-returns with an error; since the outer length never changes during
the loop, the check is equivalent to testing it once before the loop:
when `from < z_layers.len()` the call errors at `z = 0` with no mutation,
otherwise every slice is swapped. -/
def moveSpriteOrder (c : Chunk) (fromOrder toOrder : Nat) :
    Option (Chunk × List String) :=
  if fromOrder < c.z_layers.length then
    some (c, ["sprite layer exists and can not be moved"])
  else
    (vecSwapAll fromOrder toOrder c.z_layers).map
      (fun zls => ({ c with z_layers := zls }, []))

/-- `Chunk::swap_sprite_order(from, to)`: unconditionally swap the two
slots in every z-slice. -/
def swapSpriteOrder (c : Chunk) (fromOrder toOrder : Nat) : Option Chunk :=
  (vecSwapAll fromOrder toOrder c.z_layers).map
    (fun zls => { c with z_layers := zls })

/-- `Chunk::remove_layer(sprite_order)`. The loop body is
`self.z_layers.get_mut(sprite_order).take()`: `Option::take` is called
on the *temporary* `Option<&mut Vec<_>>` returned by `get_mut`, which
empties only that temporary and never writes through the reference —
the chunk is left completely unchanged. -/
def removeLayer (c : Chunk) (_sprite_order : Nat) : Chunk := c

/-- `Chunk::set_mesh(mesh)`. -/
def setMesh (c : Chunk) (mesh : Nat) : Chunk := { c with mesh := mesh }

/-- `Chunk::set_tile(index, tile)`: routes to the layer at
`(tile.point.z as usize, tile.sprite_order)`; missing sprite-order slot
logs an error and mutates nothing; out-of-range z silently does
nothing. -/
def setTile (c : Chunk) (index : Nat) (tile : Tile) : Chunk × List String :=
  match c.z_layers[i32ToUsize tile.point.z]? with
  | none => (c, [])
  | some slice =>
    match slice[tile.sprite_order]? with
    | none => (c, ["sprite layer does not exist"])
    | some layer =>
      let raw : RawTile := { index := tile.sprite_index, color := tile.tint }
      (({ c with
           z_layers := c.z_layers.set (i32ToUsize tile.point.z)
             (slice.set tile.sprite_order
               { layer with inner := layer.inner.setTile index raw }) }),
       [])

/-- `Chunk::remove_tile(index, sprite_order, z_depth)`. -/
def removeTile (c : Chunk) (index sprite_order z_depth : Nat) :
    Chunk × List String :=
  match c.z_layers[z_depth]? with
  | none => (c, ["sprite layer does not exist"])
  | some slice =>
    match slice[sprite_order]? with
    | none => (c, ["can not remove tile on sprite layer"])
    | some layer =>
      (({ c with
           z_layers := c.z_layers.set z_depth
             (slice.set sprite_order
               { layer with inner := layer.inner.removeTile index }) }),
       [])

/-- `Chunk::add_entity(entity)`. -/
def addEntity (c : Chunk) (e : Nat) : Chunk := { c with entity := some e }

/-- `Chunk::take_entity()`: returns and clears the entity slot. -/
def takeEntity (c : Chunk) : Option Nat × Chunk :=
  (c.entity, { c with entity := none })

/-- `Chunk::get_tile(index, sprite_order, z_depth)`. -/
def getTile (c : Chunk) (index sprite_order z_depth : Nat) : Option RawTile :=
  c.z_layers[z_depth]?.bind fun slice =>
    slice[sprite_order]?.bind fun layer => layer.inner.getTile index

/-- `Chunk::tiles_to_renderer_parts(dimensions)`: appends every layer's
`tiles_to_attributes(area)` output, iterating z-slices in order and
sprite-order slots in order, into two flat buffers. -/
def tilesToRendererParts (c : Chunk) (dims : Dimension3) :
    List Nat × List Color :=
  c.z_layers.foldl
    (fun acc slice =>
      slice.foldl
        (fun acc layer =>
          (acc.1 ++ (layer.inner.tilesToAttributes dims.area).1,
           acc.2 ++ (layer.inner.tilesToAttributes dims.area).2))
        acc)
    ([], [])

end Chunk

section VecSwapLemmas

variable {α : Type}

theorem vecSwap_eq_some {l : List α} {a b : Nat} {x y : α}
    (ha : l[a]? = some x) (hb : l[b]? = some y) :
    vecSwap l a b = some ((l.set a y).set b x) := by
  simp [vecSwap, ha, hb]

theorem vecSwap_isSome {l : List α} {a b : Nat}
    (ha : a < l.length) (hb : b < l.length) : (vecSwap l a b).isSome := by
  rw [vecSwap_eq_some (List.getElem?_eq_some.2 ⟨ha, rfl⟩)
    (List.getElem?_eq_some.2 ⟨hb, rfl⟩)]
  rfl

theorem vecSwap_spec {l l' : List α} {a b : Nat}
    (h : vecSwap l a b = some l') :
    l'.length = l.length ∧ l'[a]? = l[b]? ∧ l'[b]? = l[a]? ∧
      ∀ j, j ≠ a → j ≠ b → l'[j]? = l[j]? := by
  unfold vecSwap at h
  rcases hx : l[a]? with _ | x <;> rcases hy : l[b]? with _ | y <;>
    rw [hx, hy] at h <;> simp at h
  subst h
  have ha : a < l.length := (List.getElem?_eq_some.1 hx).1
  have hb : b < l.length := (List.getElem?_eq_some.1 hy).1
  refine ⟨by simp, ?_, ?_, ?_⟩
  · by_cases hab : b = a
    · subst hab
      rw [hx] at hy
      cases hy
      simp [List.getElem?_set, ha, hx]
    · simp [List.getElem?_set, hab, ha, hx, hy]
  · simp [List.getElem?_set, hb, hx]
  · intro j hja hjb
    simp [List.getElem?_set, Ne.symm hja, Ne.symm hjb]

theorem vecSwap_involutive {l l' : List α} {a b : Nat}
    (h : vecSwap l a b = some l') : vecSwap l' a b = some l := by
  rcases vecSwap_spec h with ⟨hlen, hA, hB, hO⟩
  have hx : ∃ x, l[a]? = some x := by
    unfold vecSwap at h
    rcases hx : l[a]? with _ | x <;> rcases hy : l[b]? with _ | y <;>
      rw [hx, hy] at h <;> simp at h
    exact ⟨x, rfl⟩
  have hy : ∃ y, l[b]? = some y := by
    unfold vecSwap at h
    rcases hx : l[a]? with _ | x <;> rcases hy : l[b]? with _ | y <;>
      rw [hx, hy] at h <;> simp at h
    exact ⟨y, rfl⟩
  rcases hx with ⟨x, hx⟩
  rcases hy with ⟨y, hy⟩
  rw [vecSwap_eq_some (hA.trans hy) (hB.trans hx)]
  congr 1
  apply List.ext_getElem?
  intro j
  have hal : a < l'.length := by
    rw [hlen]
    exact (List.getElem?_eq_some.1 hx).1
  have hbl : b < l'.length := by
    rw [hlen]
    exact (List.getElem?_eq_some.1 hy).1
  by_cases hjb : b = j
  · subst hjb
    simp [List.getElem?_set, hbl, hy]
  · by_cases hja : a = j
    · subst hja
      simp [List.getElem?_set, hjb, hal, hx]
    · simp [List.getElem?_set, hjb, hja]
      exact hO j (fun h => hja h.symm) (fun h => hjb h.symm)

end VecSwapLemmas

namespace Chunk

theorem vecSwapAll_involutive {a b : Nat} :
    ∀ {zls zls' : List (List SpriteLayer)},
      vecSwapAll a b zls = some zls' → vecSwapAll a b zls' = some zls
  | [], zls', h => by
      cases h
      rfl
  | s :: rest, zls', h => by
      unfold vecSwapAll at h
      rcases ho : vecSwap s a b with _ | s' <;> rw [ho] at h
      · cases h
      · rcases hr : vecSwapAll a b rest with _ | rest' <;> rw [hr] at h
        · cases h
        · cases h
          unfold vecSwapAll
          rw [vecSwap_involutive ho, vecSwapAll_involutive hr]
          rfl

theorem vecSwapAll_getElem? {a b : Nat} :
    ∀ {zls zls' : List (List SpriteLayer)},
      vecSwapAll a b zls = some zls' →
      ∀ z : Nat, zls'[z]? = Option.bind zls[z]? (fun s : List SpriteLayer => vecSwap s a b)
  | [], zls', h, z => by
      cases h
      simp
  | s :: rest, zls', h, z => by
      unfold vecSwapAll at h
      rcases ho : vecSwap s a b with _ | s' <;> rw [ho] at h
      · cases h
      · rcases hr : vecSwapAll a b rest with _ | rest' <;> rw [hr] at h
        · cases h
        · cases h
          cases z with
          | zero => simp [ho]
          | succ z => simpa using vecSwapAll_getElem? hr z

theorem vecSwapAll_isSome {a b : Nat} :
    ∀ {zls : List (List SpriteLayer)},
      (∀ s ∈ zls, a < s.length ∧ b < s.length) →
      (vecSwapAll a b zls).isSome
  | [], _ => rfl
  | s :: rest, h => by
      have hs := h s (by simp)
      have hsome := vecSwap_isSome (α := SpriteLayer) hs.1 hs.2
      unfold vecSwapAll
      rcases ho : vecSwap s a b with _ | s' <;> rw [ho] at hsome
      · cases hsome
      · have : (vecSwapAll a b rest).isSome :=
          vecSwapAll_isSome fun t ht => h t (by simp [ht])
        rcases hr : vecSwapAll a b rest with _ | rest' <;> rw [hr] at this
        · cases this
        · rfl

end Chunk

theorem mem_of_getElem?_zl {zls : List (List SpriteLayer)} {z : Nat}
    {s : List SpriteLayer} (h : zls[z]? = some s) : s ∈ zls := by
  rcases List.getElem?_eq_some.1 h with ⟨hz, rfl⟩
  exact List.getElem_mem hz

/-- Claim C5: for in-range sprite orders `a` and `b`, `swap_sprite_order`
returns normally; a single application exchanges the storage at `(z, a)`
and `(z, b)` in every z-slice and leaves every other slot unchanged, and
applying it a second time restores the original chunk exactly. -/
theorem swap_sprite_order_exchanges_and_self_inverse
    (c : Chunk) (a b : Nat)
    (h : ∀ s ∈ c.z_layers, a < s.length ∧ b < s.length) :
    (c.swapSpriteOrder a b).isSome ∧
    ∀ c', c.swapSpriteOrder a b = some c' →
      c'.swapSpriteOrder a b = some c ∧
      ∀ z : Nat, ∀ s : List SpriteLayer, c.z_layers[z]? = some s →
        ∃ s', c'.z_layers[z]? = some s' ∧
          s'[a]? = s[b]? ∧ s'[b]? = s[a]? ∧
          ∀ j : Nat, j ≠ a → j ≠ b → s'[j]? = s[j]? := by
  have hall := Chunk.vecSwapAll_isSome (a := a) (b := b) h
  constructor
  · unfold Chunk.swapSpriteOrder
    rcases hv : Chunk.vecSwapAll a b c.z_layers with _ | zls' <;>
      rw [hv] at hall
    · cases hall
    · rfl
  · intro c' hc'
    unfold Chunk.swapSpriteOrder at hc'
    rcases hv : Chunk.vecSwapAll a b c.z_layers with _ | zls' <;>
      rw [hv] at hc'
    · cases hc'
    · simp at hc'
      constructor
      · unfold Chunk.swapSpriteOrder
        rw [← hc', Chunk.vecSwapAll_involutive hv]
        cases c
        rfl
      · intro z s hs
        have hsw : (Chunk.vecSwapAll a b c.z_layers).isSome := hall
        have hz := Chunk.vecSwapAll_getElem? hv z
        rw [hs] at hz
        simp only [Option.bind] at hz
        have hbounds := h s (mem_of_getElem?_zl hs)
        have hvs := vecSwap_isSome (α := SpriteLayer) hbounds.1 hbounds.2
        rcases hvv : vecSwap s a b with _ | s' <;> rw [hvv] at hvs hz
        · cases hvs
        · rcases vecSwap_spec hvv with ⟨_, h1, h2, h3⟩
          refine ⟨s', ?_, h1, h2, h3⟩
          rw [← hc']
          exact hz

/-- Witness for C5 at a concrete chunk with one z-slice and two slots. -/
theorem swap_sprite_order_exchanges_and_self_inverse_witness :
    ((Chunk.new ⟨0, 0⟩ [none, none] ⟨1, 1, 1⟩ 0).swapSpriteOrder 0 1).isSome ∧
    ∀ c', (Chunk.new ⟨0, 0⟩ [none, none] ⟨1, 1, 1⟩ 0).swapSpriteOrder 0 1 = some c' →
      c'.swapSpriteOrder 0 1 = some (Chunk.new ⟨0, 0⟩ [none, none] ⟨1, 1, 1⟩ 0) ∧
      ∀ z : Nat, ∀ s : List SpriteLayer,
        (Chunk.new ⟨0, 0⟩ [none, none] ⟨1, 1, 1⟩ 0).z_layers[z]? = some s →
        ∃ s', c'.z_layers[z]? = some s' ∧
          s'[0]? = s[1]? ∧ s'[1]? = s[0]? ∧
          ∀ j : Nat, j ≠ 0 → j ≠ 1 → s'[j]? = s[j]? :=
  swap_sprite_order_exchanges_and_self_inverse
    (Chunk.new ⟨0, 0⟩ [none, none] ⟨1, 1, 1⟩ 0) 0 1 (by decide)

/-- Claim C1 (evaluation at the failing input): `Chunk::new` builds
`z_layers` as `vec![vec![default; layers.len()]]`, a single z-slice, so a
chunk constructed with `depth = 2` has one z-slice, not
`dimensions.depth` as the claim states. -/
theorem chunk_new_allocates_single_z_slice :
    (Chunk.new ⟨0, 0⟩ [none] ⟨1, 1, 2⟩ 0).z_layers.length = 1 ∧
    (Chunk.new ⟨0, 0⟩ [none] ⟨1, 1, 2⟩ 0).z_layers.length ≠
      (⟨1, 1, 2⟩ : Dimension3).depth := by decide

/-- Claim C3 (evaluation at the failing input): `remove_layer` calls
`Option::take` on the temporary returned by `Vec::get_mut`, so it never
clears anything: it is the identity on the chunk, and a tile written to a
Dense layer at sprite order 0 is still returned by `get_tile` after
`remove_layer(0)`, where the claim demands "no value". -/
theorem remove_layer_leaves_tile_in_place :
    (∀ (c : Chunk) (so : Nat), c.removeLayer so = c) ∧
    (((Chunk.new ⟨0, 0⟩ [some .dense] ⟨2, 2, 1⟩ 0).setTile 1
        ⟨⟨1, 0, 0⟩, 0, 5, ⟨1, 0, 0, 1⟩⟩).1.removeLayer 0).getTile 1 0 0
      = some ⟨5, ⟨1, 0, 0, 1⟩⟩ :=
  ⟨fun _ _ => rfl, by decide⟩

/-- Claim C4 (evaluation at the failing input): on a chunk with one
z-slice and two slots, both still the default empty sparse layer,
`move_sprite_order(0, 1)` reports "sprite layer exists and can not be
moved" and mutates nothing, even though the destination slot holds no
data — the source tests `z_layers.get(from_sprite_order)`, the outer
z-vector, instead of any slot occupancy. -/
theorem move_sprite_order_rejects_empty_destination :
    (Chunk.new ⟨0, 0⟩ [none, none] ⟨1, 1, 1⟩ 0).moveSpriteOrder 0 1
      = some (Chunk.new ⟨0, 0⟩ [none, none] ⟨1, 1, 1⟩ 0,
          ["sprite layer exists and can not be moved"]) ∧
    ((Chunk.new ⟨0, 0⟩ [none, none] ⟨1, 1, 1⟩ 0).z_layers.getD 0 []).getD 1
        defaultSpriteLayer = defaultSpriteLayer := by decide

/-- Claim C6 counterexample: `swap_sprite_order(5, 0)` on a chunk whose
single z-slice has one slot hits the out-of-bounds `Vec::swap` panic
(modelled as `none`) instead of reporting through the side channel and
returning normally. -/
theorem swap_sprite_order_out_of_range_panics :
    (Chunk.new ⟨0, 0⟩ [none] ⟨1, 1, 1⟩ 0).swapSpriteOrder 5 0 = none := by
  decide

/-- Claim C6 (amended): for sprite-order arguments within every z-slice's
slot count, `swap_sprite_order` and `move_sprite_order` return normally
(no panic); `move_sprite_order` reports its error through the side
channel and, whenever it reports one, performs no mutation at all. -/
theorem swap_move_in_range_return_normally (c : Chunk) (a b : Nat)
    (h : ∀ s ∈ c.z_layers, a < s.length ∧ b < s.length) :
    (c.swapSpriteOrder a b).isSome ∧
    (c.moveSpriteOrder a b).isSome ∧
    ∀ c' errs, c.moveSpriteOrder a b = some (c', errs) → errs ≠ [] →
      c' = c := by
  have hall := Chunk.vecSwapAll_isSome (a := a) (b := b) h
  refine ⟨?_, ?_, ?_⟩
  · unfold Chunk.swapSpriteOrder
    rcases hv : Chunk.vecSwapAll a b c.z_layers with _ | zls' <;>
      rw [hv] at hall
    · cases hall
    · rfl
  · unfold Chunk.moveSpriteOrder
    by_cases hlt : a < c.z_layers.length
    · rw [if_pos hlt]
      rfl
    · rw [if_neg hlt]
      rcases hv : Chunk.vecSwapAll a b c.z_layers with _ | zls' <;>
        rw [hv] at hall
      · cases hall
      · rfl
  · intro c' errs hmv hne
    unfold Chunk.moveSpriteOrder at hmv
    by_cases hlt : a < c.z_layers.length
    · rw [if_pos hlt] at hmv
      cases hmv
      rfl
    · rw [if_neg hlt] at hmv
      rcases hv : Chunk.vecSwapAll a b c.z_layers with _ | zls' <;>
        rw [hv] at hmv
      · cases hmv
      · injection hmv with hmv'
        have h2 : errs = [] := by
          have h3 := congrArg Prod.snd hmv'
          simpa using h3.symm
        exact absurd h2 hne

/-- Witness for the amended C6 at a concrete chunk with two slots. -/
theorem swap_move_in_range_return_normally_witness :
    ((Chunk.new ⟨0, 0⟩ [some .sparse, none] ⟨1, 1, 1⟩ 0).swapSpriteOrder 0 1).isSome ∧
    ((Chunk.new ⟨0, 0⟩ [some .sparse, none] ⟨1, 1, 1⟩ 0).moveSpriteOrder 0 1).isSome ∧
    ∀ c' errs,
      (Chunk.new ⟨0, 0⟩ [some .sparse, none] ⟨1, 1, 1⟩ 0).moveSpriteOrder 0 1
        = some (c', errs) → errs ≠ [] →
      c' = Chunk.new ⟨0, 0⟩ [some .sparse, none] ⟨1, 1, 1⟩ 0 :=
  swap_move_in_range_return_normally
    (Chunk.new ⟨0, 0⟩ [some .sparse, none] ⟨1, 1, 1⟩ 0) 0 1 (by decide)

/-- Claim C8 (evaluation at the failing input): asking for a Dense layer
at sprite order 5 on a chunk whose slices have two slots reports nothing
and mutates nothing — the Dense arm of `add_layer` attaches its
`error!` to the z-bounds check, not to the sprite-order check — while
the Sparse arm does report the out-of-bounds error. -/
theorem add_layer_dense_out_of_range_is_silent :
    (Chunk.new ⟨0, 0⟩ [none, none] ⟨1, 1, 1⟩ 0).addLayer .dense 5 ⟨1, 1, 1⟩
      = (Chunk.new ⟨0, 0⟩ [none, none] ⟨1, 1, 1⟩ 0, []) ∧
    ((Chunk.new ⟨0, 0⟩ [none, none] ⟨1, 1, 1⟩ 0).addLayer .sparse 5 ⟨1, 1, 1⟩).2
      = ["sprite layer is out of bounds"] := by decide

theorem assocGet_assocSet_self (m : List (Nat × RawTile)) (k : Nat)
    (v : RawTile) : assocGet (assocSet m k v) k = some v := by
  induction m with
  | nil => simp [assocSet, assocGet]
  | cons p rest ih =>
    rcases p with ⟨k', v'⟩
    by_cases hk : k' = k
    · subst hk
      simp [assocSet, assocGet]
    · simp [assocSet, assocGet, hk, ih]

/-- Claim C7: `set_tile` addressed at an in-range z but a missing
sprite-order slot reports the layer-missing error and leaves the chunk
untouched; addressed at an out-of-range z it is silently a no-op. -/
theorem set_tile_missing_slot_and_out_of_range_z (c : Chunk) (i : Nat)
    (t : Tile) :
    (∀ slice : List SpriteLayer,
      c.z_layers[i32ToUsize t.point.z]? = some slice →
      slice[t.sprite_order]? = none →
      c.setTile i t = (c, ["sprite layer does not exist"])) ∧
    (c.z_layers[i32ToUsize t.point.z]? = none →
      c.setTile i t = (c, [])) := by
  constructor
  · intro slice hz hs
    unfold Chunk.setTile
    simp only [hz, hs]
  · intro hz
    unfold Chunk.setTile
    simp only [hz]

/-- Witness for C7: a chunk with one z-slice and one slot; a tile at
sprite order 3 hits the missing-slot error, a tile at z = 5 is silently
ignored. -/
theorem set_tile_missing_slot_and_out_of_range_z_witness :
    (Chunk.new ⟨0, 0⟩ [none] ⟨1, 1, 1⟩ 0).setTile 0
        ⟨⟨0, 0, 0⟩, 3, 7, ⟨1, 0, 0, 1⟩⟩
      = (Chunk.new ⟨0, 0⟩ [none] ⟨1, 1, 1⟩ 0, ["sprite layer does not exist"]) ∧
    (Chunk.new ⟨0, 0⟩ [none] ⟨1, 1, 1⟩ 0).setTile 0
        ⟨⟨0, 0, 5⟩, 0, 7, ⟨1, 0, 0, 1⟩⟩
      = (Chunk.new ⟨0, 0⟩ [none] ⟨1, 1, 1⟩ 0, []) :=
  ⟨(set_tile_missing_slot_and_out_of_range_z (Chunk.new ⟨0, 0⟩ [none] ⟨1, 1, 1⟩ 0)
      0 ⟨⟨0, 0, 0⟩, 3, 7, ⟨1, 0, 0, 1⟩⟩).1 [defaultSpriteLayer] (by decide) (by decide),
   (set_tile_missing_slot_and_out_of_range_z (Chunk.new ⟨0, 0⟩ [none] ⟨1, 1, 1⟩ 0)
      0 ⟨⟨0, 0, 5⟩, 0, 7, ⟨1, 0, 0, 1⟩⟩).2 (by decide)⟩

/-- Validity of a flat index for a layer: a Dense layer requires the
index to fall inside its backing storage, a Sparse layer accepts any
index. -/
def LayerKindInner.indexInBounds : LayerKindInner → Nat → Bool
  | .dense d, i => i < d.tiles.length
  | .sparse _, _ => true

/-- Claim C9: writing a tile through `set_tile` at an existing
`(z, sprite_order)` slot of either kind and a valid index, then reading
it back with `get_tile` at the same address, returns exactly the written
sprite index and tint. -/
theorem set_tile_get_tile_roundtrip (c : Chunk) (i : Nat) (t : Tile)
    (slice : List SpriteLayer) (layer : SpriteLayer)
    (hz : c.z_layers[i32ToUsize t.point.z]? = some slice)
    (hs : slice[t.sprite_order]? = some layer)
    (hvalid : layer.inner.indexInBounds i = true) :
    (c.setTile i t).1.getTile i t.sprite_order (i32ToUsize t.point.z)
      = some { index := t.sprite_index, color := t.tint } := by
  have hzlen : i32ToUsize t.point.z < c.z_layers.length :=
    (List.getElem?_eq_some.1 hz).1
  have hslen : t.sprite_order < slice.length :=
    (List.getElem?_eq_some.1 hs).1
  unfold Chunk.setTile
  simp only [hz, hs]
  unfold Chunk.getTile
  simp only [List.getElem?_set_self hzlen, List.getElem?_set_self hslen,
    Option.bind_some, Option.some_bind]
  rcases hk : layer.inner with d | s
  · rw [hk] at hvalid
    simp only [LayerKindInner.indexInBounds, decide_eq_true_eq] at hvalid
    simp only [hk, LayerKindInner.setTile, LayerKindInner.getTile]
    rw [List.getElem?_set_self (by simpa using hvalid)]
  · simp only [hk, LayerKindInner.setTile, LayerKindInner.getTile]
    rw [assocGet_assocSet_self]

/-- Witness for C9: one dense and one sparse write on a 2×2 chunk. -/
theorem set_tile_get_tile_roundtrip_witness :
    ((Chunk.new ⟨0, 0⟩ [some .dense] ⟨2, 2, 1⟩ 0).setTile 1
        ⟨⟨1, 0, 0⟩, 0, 5, ⟨1, 0, 0, 1⟩⟩).1.getTile 1 0 0
      = some { index := 5, color := ⟨1, 0, 0, 1⟩ } :=
  set_tile_get_tile_roundtrip (Chunk.new ⟨0, 0⟩ [some .dense] ⟨2, 2, 1⟩ 0) 1
    ⟨⟨1, 0, 0⟩, 0, 5, ⟨1, 0, 0, 1⟩⟩
    ((Chunk.new ⟨0, 0⟩ [some .dense] ⟨2, 2, 1⟩ 0).z_layers.getD 0 [])
    (((Chunk.new ⟨0, 0⟩ [some .dense] ⟨2, 2, 1⟩ 0).z_layers.getD 0 []).getD 0
      defaultSpriteLayer)
    (by decide) (by decide) (by decide)

theorem addLayer_point (c : Chunk) (kind : LayerKind) (so : Nat)
    (dims : Dimension3) : (c.addLayer kind so dims).1.point = c.point := rfl

theorem foldl_addLayer_point (dims : Dimension3) :
    ∀ (l : List (Nat × Option LayerKind)) (c : Chunk),
      (l.foldl
        (fun c p =>
          match p.2 with
          | some kind => (c.addLayer kind p.1 dims).1
          | none => c) c).point = c.point
  | [], _ => rfl
  | (n, k) :: rest, c => by
    rcases k with _ | kind
    · simpa using foldl_addLayer_point dims rest c
    · rw [List.foldl_cons]
      simp only
      rw [foldl_addLayer_point dims rest _]
      exact addLayer_point c kind n dims

theorem new_point (p : Point2) (ks : List (Option LayerKind))
    (dims : Dimension3) (m : Nat) : (Chunk.new p ks dims m).point = p := by
  unfold Chunk.new
  exact foldl_addLayer_point dims ks.enum _

/-- Claim C10: the chunk's grid point is immutable: construction stores
the given point and every operation — `add_layer`, `move_sprite_order`,
`swap_sprite_order`, `remove_layer`, `set_mesh`, `set_tile`,
`remove_tile`, `add_entity`, `take_entity` — leaves the `point` field
unchanged (for the two operations that can panic, whenever they return a
chunk). -/
theorem chunk_point_immutable (p : Point2) (ks : List (Option LayerKind))
    (dims dims' : Dimension3) (m m' : Nat) (c : Chunk) (kind : LayerKind)
    (so a b i z e : Nat) (t : Tile) :
    (Chunk.new p ks dims m).point = p ∧
    (c.addLayer kind so dims').1.point = c.point ∧
    ((c.moveSpriteOrder a b).elim c.point fun r => r.1.point) = c.point ∧
    ((c.swapSpriteOrder a b).elim c.point Chunk.point) = c.point ∧
    (c.removeLayer so).point = c.point ∧
    (c.setMesh m').point = c.point ∧
    (c.setTile i t).1.point = c.point ∧
    (c.removeTile i so z).1.point = c.point ∧
    (c.addEntity e).point = c.point ∧
    c.takeEntity.2.point = c.point := by
  refine ⟨new_point p ks dims m, addLayer_point c kind so dims', ?_, ?_,
    rfl, rfl, ?_, ?_, rfl, rfl⟩
  · unfold Chunk.moveSpriteOrder
    by_cases hlt : a < c.z_layers.length
    · rw [if_pos hlt]
      rfl
    · rw [if_neg hlt]
      rcases hv : Chunk.vecSwapAll a b c.z_layers with _ | zls' <;> simp [hv]
  · unfold Chunk.swapSpriteOrder
    rcases hv : Chunk.vecSwapAll a b c.z_layers with _ | zls' <;> simp [hv]
  · unfold Chunk.setTile
    rcases hz : c.z_layers[i32ToUsize t.point.z]? with _ | slice
    · simp
    · simp only
      rcases hs : slice[t.sprite_order]? with _ | layer <;> simp [hz, hs]
  · unfold Chunk.removeTile
    rcases hz : c.z_layers[z]? with _ | slice
    · simp
    · rcases hs : slice[so]? with _ | layer <;> simp [hz, hs]

theorem tilesToAttributes_length_fst (inner : LayerKindInner) (area : Nat) :
    (inner.tilesToAttributes area).1.length = area := by
  cases inner <;> simp [LayerKindInner.tilesToAttributes]

theorem tilesToAttributes_length_snd (inner : LayerKindInner) (area : Nat) :
    (inner.tilesToAttributes area).2.length = area := by
  cases inner <;> simp [LayerKindInner.tilesToAttributes]

theorem foldl_attr_inner (area : Nat) :
    ∀ (slice : List SpriteLayer) (acc : List Nat × List Color),
      slice.foldl
        (fun acc layer =>
          (acc.1 ++ (layer.inner.tilesToAttributes area).1,
           acc.2 ++ (layer.inner.tilesToAttributes area).2)) acc
      = (acc.1 ++ (slice.map fun l => (l.inner.tilesToAttributes area).1).flatten,
         acc.2 ++ (slice.map fun l => (l.inner.tilesToAttributes area).2).flatten)
  | [], acc => by simp
  | layer :: rest, acc => by
    rw [List.foldl_cons, foldl_attr_inner area rest]
    simp [List.append_assoc]

theorem foldl_attr_outer (area : Nat) :
    ∀ (zls : List (List SpriteLayer)) (acc : List Nat × List Color),
      zls.foldl
        (fun acc slice =>
          slice.foldl
            (fun acc layer =>
              (acc.1 ++ (layer.inner.tilesToAttributes area).1,
               acc.2 ++ (layer.inner.tilesToAttributes area).2)) acc) acc
      = (acc.1 ++ (zls.map fun slice =>
            (slice.map fun l => (l.inner.tilesToAttributes area).1).flatten).flatten,
         acc.2 ++ (zls.map fun slice =>
            (slice.map fun l => (l.inner.tilesToAttributes area).2).flatten).flatten)
  | [], acc => by simp
  | slice :: rest, acc => by
    rw [List.foldl_cons, foldl_attr_inner area slice, foldl_attr_outer area rest]
    simp [List.append_assoc]

theorem tilesToRendererParts_eq (c : Chunk) (dims : Dimension3) :
    c.tilesToRendererParts dims
      = ((c.z_layers.map fun slice =>
            (slice.map fun l => (l.inner.tilesToAttributes dims.area).1).flatten).flatten,
         (c.z_layers.map fun slice =>
            (slice.map fun l => (l.inner.tilesToAttributes dims.area).2).flatten).flatten) := by
  unfold Chunk.tilesToRendererParts
  rw [foldl_attr_outer dims.area c.z_layers ([], [])]
  simp

theorem flatten_map_length_fst (area : Nat) (slice : List SpriteLayer) :
    ((slice.map fun l => (l.inner.tilesToAttributes area).1).flatten).length
      = slice.length * area := by
  induction slice with
  | nil => simp
  | cons x rest ih =>
    simp [ih, tilesToAttributes_length_fst, Nat.succ_mul, Nat.add_comm]

theorem flatten_map_length_snd (area : Nat) (slice : List SpriteLayer) :
    ((slice.map fun l => (l.inner.tilesToAttributes area).2).flatten).length
      = slice.length * area := by
  induction slice with
  | nil => simp
  | cons x rest ih =>
    simp [ih, tilesToAttributes_length_snd, Nat.succ_mul, Nat.add_comm]

theorem outer_flatten_length_fst (area k : Nat) :
    ∀ (zls : List (List SpriteLayer)), (∀ s ∈ zls, s.length = k) →
      ((zls.map fun slice =>
          (slice.map fun l => (l.inner.tilesToAttributes area).1).flatten).flatten).length
        = zls.length * (k * area)
  | [], _ => by simp
  | slice :: rest, hk => by
    have hs := hk slice (by simp)
    have ih := outer_flatten_length_fst area k rest fun t ht => hk t (by simp [ht])
    rw [List.map_cons, List.flatten_cons, List.length_append,
      flatten_map_length_fst, hs, ih, List.length_cons]
    ring

theorem outer_flatten_length_snd (area k : Nat) :
    ∀ (zls : List (List SpriteLayer)), (∀ s ∈ zls, s.length = k) →
      ((zls.map fun slice =>
          (slice.map fun l => (l.inner.tilesToAttributes area).2).flatten).flatten).length
        = zls.length * (k * area)
  | [], _ => by simp
  | slice :: rest, hk => by
    have hs := hk slice (by simp)
    have ih := outer_flatten_length_snd area k rest fun t ht => hk t (by simp [ht])
    rw [List.map_cons, List.flatten_cons, List.length_append,
      flatten_map_length_snd, hs, ih, List.length_cons]
    ring

/-- Claim C2: `tiles_to_renderer_parts(dimensions)` returns exactly the
concatenation, over z-slices in order and sprite-order slots in order, of
each layer's `tiles_to_attributes(area)` output with
`area = dimensions.area()`; every layer contributes exactly `area`
entries to each buffer, so when every z-slice has `k` slots both buffers
have length `z_layers.length * k * area`. -/
theorem tiles_to_renderer_parts_concat (c : Chunk) (dims : Dimension3)
    (k : Nat) (hk : ∀ s ∈ c.z_layers, s.length = k) :
    c.tilesToRendererParts dims
      = ((c.z_layers.map fun slice =>
            (slice.map fun l => (l.inner.tilesToAttributes dims.area).1).flatten).flatten,
         (c.z_layers.map fun slice =>
            (slice.map fun l => (l.inner.tilesToAttributes dims.area).2).flatten).flatten) ∧
    (∀ inner : LayerKindInner,
      (inner.tilesToAttributes dims.area).1.length = dims.area ∧
      (inner.tilesToAttributes dims.area).2.length = dims.area) ∧
    (c.tilesToRendererParts dims).1.length
      = c.z_layers.length * k * dims.area ∧
    (c.tilesToRendererParts dims).2.length
      = c.z_layers.length * k * dims.area := by
  have heq := tilesToRendererParts_eq c dims
  refine ⟨heq,
    fun inner => ⟨tilesToAttributes_length_fst inner dims.area,
      tilesToAttributes_length_snd inner dims.area⟩, ?_, ?_⟩
  · rw [heq]
    simpa [Nat.mul_assoc] using
      outer_flatten_length_fst dims.area k c.z_layers hk
  · rw [heq]
    simpa [Nat.mul_assoc] using
      outer_flatten_length_snd dims.area k c.z_layers hk

/-- Witness for C2 at a 2×1 chunk with one Dense slot per slice. -/
theorem tiles_to_renderer_parts_concat_witness :
    (Chunk.new ⟨0, 0⟩ [some .dense] ⟨2, 1, 1⟩ 0).tilesToRendererParts ⟨2, 1, 1⟩
      = (((Chunk.new ⟨0, 0⟩ [some .dense] ⟨2, 1, 1⟩ 0).z_layers.map fun slice =>
            (slice.map fun l =>
              (l.inner.tilesToAttributes (⟨2, 1, 1⟩ : Dimension3).area).1).flatten).flatten,
         ((Chunk.new ⟨0, 0⟩ [some .dense] ⟨2, 1, 1⟩ 0).z_layers.map fun slice =>
            (slice.map fun l =>
              (l.inner.tilesToAttributes (⟨2, 1, 1⟩ : Dimension3).area).2).flatten).flatten) ∧
    (∀ inner : LayerKindInner,
      (inner.tilesToAttributes (⟨2, 1, 1⟩ : Dimension3).area).1.length
        = (⟨2, 1, 1⟩ : Dimension3).area ∧
      (inner.tilesToAttributes (⟨2, 1, 1⟩ : Dimension3).area).2.length
        = (⟨2, 1, 1⟩ : Dimension3).area) ∧
    ((Chunk.new ⟨0, 0⟩ [some .dense] ⟨2, 1, 1⟩ 0).tilesToRendererParts ⟨2, 1, 1⟩).1.length
      = (Chunk.new ⟨0, 0⟩ [some .dense] ⟨2, 1, 1⟩ 0).z_layers.length * 1 *
          (⟨2, 1, 1⟩ : Dimension3).area ∧
    ((Chunk.new ⟨0, 0⟩ [some .dense] ⟨2, 1, 1⟩ 0).tilesToRendererParts ⟨2, 1, 1⟩).2.length
      = (Chunk.new ⟨0, 0⟩ [some .dense] ⟨2, 1, 1⟩ 0).z_layers.length * 1 *
          (⟨2, 1, 1⟩ : Dimension3).area :=
  tiles_to_renderer_parts_concat (Chunk.new ⟨0, 0⟩ [some .dense] ⟨2, 1, 1⟩ 0)
    ⟨2, 1, 1⟩ 1 (by decide)

end BevyTilemap
